import Mathlib

/-!
Verification of the solana-bootcamp-autumn-2024 scripts.

Each script in the repository is a straight-line asynchronous program:
it constructs on-chain instructions, assembles them into a transaction,
signs, submits, and logs.  We embed each script as a pure Lean function
from a run environment (the configuration keypairs, the generated
keypair's public key, and the responses of the network endpoint) to the
ordered trace of observable events of the run together with its outcome
(a value, or the thrown error).  Network responses that the script merely
awaits are inputs of the environment; the order in which the script
issues requests, writes files and logs is recorded in the trace.
-/

namespace Bootcamp

/-- Base58 rendering of a Solana public key. -/
abbrev Pubkey := String

/-- Constant `MINT_SIZE` from `@solana/spl-token`: the byte size of a mint account. -/
def MINT_SIZE : Nat := 82

/-- The SPL token program id (`TOKEN_PROGRAM_ID` from `@solana/spl-token`). -/
def TOKEN_PROGRAM_ID : Pubkey := "TokenkegQfeZyiNwAJbNbGKPFXCWuBvf9Ss623VQ5DA"

/-- The associated token program id (`ASSOCIATED_TOKEN_PROGRAM_ID`). -/
def ASSOCIATED_TOKEN_PROGRAM_ID : Pubkey := "ATokenGPvbdGVxr1b2hvZbsiqW5xWH25efTNsLJA8knL"

/-- The Metaplex token metadata program id (`METADATA_PROGRAM_ID`). -/
def METADATA_PROGRAM_ID : Pubkey := "metaqbxxUerdq28cj1RbAWkYQm3ybzjb6a8bt518x1s"

/-- The system program id (`SystemProgram.programId`). -/
def SYSTEM_PROGRAM_ID : Pubkey := "11111111111111111111111111111111"

/-- The on-chain instructions the three scripts construct, one constructor
per helper constructor called in the source. -/
inductive Instruction where
  | createAccount (fromPubkey newAccountPubkey : Pubkey)
      (lamports : Nat) (space : Nat) (programId : Pubkey)
  | transfer (fromPubkey toPubkey : Pubkey) (lamports : Nat)
  | initializeMint2 (mint : Pubkey) (decimals : Nat)
      (mintAuthority freezeAuthority : Pubkey)
  | createMetadataAccountV3 (metadata mint mintAuthority payer updateAuthority : Pubkey)
      (name symbol uri : String) (sellerFeeBasisPoints : Nat) (isMutable : Bool)
  | createAssociatedTokenAccount (payer ata owner mint : Pubkey)
  | mintTo (mint dest authority : Pubkey) (amount : Nat)
  deriving DecidableEq, Repr

/-- Model of `PublicKey.findProgramAddressSync` of `@solana/web3.js`: a pure,
deterministic derivation of an address from seed buffers and a program id
(the real derivation hashes the seeds; we model it as an injective tagged
encoding, which preserves exactly its determinism in the seeds). -/
def findProgramAddressSync (seeds : List String) (programId : Pubkey) : Pubkey :=
  "PDA(" ++ String.intercalate "," seeds ++ ";" ++ programId ++ ")"

/-- A compiled v0 transaction message: fee payer, recent blockhash and the
ordered instruction list (`TransactionMessage ... .compileToV0Message()`). -/
structure TransactionMessage where
  payerKey : Pubkey
  recentBlockhash : String
  instructions : List Instruction
  deriving DecidableEq, Repr

/-- A versioned transaction: the compiled message plus the public keys of
the keypairs whose signatures were applied with `tx.sign`. -/
structure VersionedTransaction where
  message : TransactionMessage
  signerKeys : List Pubkey
  deriving DecidableEq, Repr

/-- An error thrown by the network client; it may carry a transaction
signature that diagnostic code can recover. -/
structure SolanaError where
  message : String
  signature : Option String
  deriving DecidableEq, Repr

/-- The JSON metadata object of the NFT script. -/
structure NftMetadata where
  name : String
  symbol : String
  description : String
  image : String
  deriving DecidableEq, Repr

/-- The argument record of `metaplex.nfts().create`. -/
structure NftCreateArgs where
  uri : String
  name : String
  symbol : String
  useNewMint : Pubkey
  sellerFeeBasisPoints : Nat
  isMutable : Bool
  deriving DecidableEq, Repr

/-- Observable events of a script run, in program order: console logging,
each awaited network request, the file write of a public key, and the call
of the signature-extraction helper in a catch block. -/
inductive Event where
  | log (s : String)
  | logTx (tx : VersionedTransaction)
  | netRentExemption (space : Nat)
  | netLatestBlockhash
  | netSendTransaction (tx : VersionedTransaction)
  | netUploadMetadata (m : NftMetadata)
  | netCreateNft (args : NftCreateArgs)
  | netFindByMint (mint : Pubkey)
  | fileWrite (label : String) (key : Pubkey)
  | extractSignature (e : SolanaError)
  deriving DecidableEq, Repr

/-- Does the event submit a transaction to the network? -/
def Event.isSubmission : Event → Bool
  | .netSendTransaction _ => true
  | .netCreateNft _ => true
  | _ => false

/-- Is the event an awaited network request? -/
def Event.isNet : Event → Bool
  | .netRentExemption _ => true
  | .netLatestBlockhash => true
  | .netSendTransaction _ => true
  | .netUploadMetadata _ => true
  | .netCreateNft _ => true
  | .netFindByMint _ => true
  | _ => false

/-- Does the event write persistent state (a file)? -/
def Event.isFileWrite : Event → Bool
  | .fileWrite _ _ => true
  | _ => false

/-- Is the event a call of `extractSignatureFromFailedTransaction`? -/
def Event.isExtract : Event → Bool
  | .extractSignature _ => true
  | _ => false

/-- The trace and outcome of one run of a script. -/
structure ScriptRun (α : Type) where
  events : List Event
  result : Except SolanaError α
  deriving Repr

/-- Modelled from the spec: `explorerURL` of `lib/helpers` (not in `src/`)
renders "a human-readable explorer link" for a transaction signature. -/
def explorerURL (txSignature : String) : String :=
  "https://explorer.solana.com/tx/" ++ txSignature ++ "?cluster=devnet"

/-- Modelled from the spec: `extractSignatureFromFailedTransaction` of
`lib/helpers` (not in `src/`) "attempts to pull a transaction signature
out of the thrown error", returning it when present. -/
def extractSignatureFromFailedTransaction (e : SolanaError) : Option String :=
  e.signature

/-! ## The week-1 script (`week-1/assignment/scripts/index.ts`) -/

/-- Environment of a run of the week-1 script: the configured payer and
static wallets, the generated keypair's public key, and the responses of
the network endpoint. -/
structure Week1Env where
  payerPub : Pubkey
  testWalletPub : Pubkey
  keypairPub : Pubkey
  staticPub : Pubkey
  blockhash : String
  sendResult : Except SolanaError String
  deriving Repr

/-- Variable `space = 0`: the on-chain space allocated for the new account. -/
def week1_space : Nat := 0

/-- Instruction `createAccountIx`: create the generated account, funded with
200,000,000 lamports from the payer, owned by the system program. -/
def createAccountIx (env : Week1Env) : Instruction :=
  .createAccount env.payerPub env.keypairPub 200000000 week1_space SYSTEM_PROGRAM_ID

/-- Instruction `transferToStaticWalletIx`: move 100,000,000 lamports from the new
account to the static wallet. -/
def transferToStaticWalletIx (env : Week1Env) : Instruction :=
  .transfer env.keypairPub env.staticPub 100000000

/-- Instruction `closeAccountIx`: move 100,000,000 lamports from the new account back
to the payer. -/
def closeAccountIx (env : Week1Env) : Instruction :=
  .transfer env.keypairPub env.payerPub 100000000

/-- The transaction the week-1 script builds: the three instructions in
construction order, the fetched recent blockhash, signed by the payer and
the generated keypair. -/
def week1Tx (env : Week1Env) : VersionedTransaction :=
  { message :=
      { payerKey := env.payerPub
        recentBlockhash := env.blockhash
        instructions :=
          [createAccountIx env, transferToStaticWalletIx env, closeAccountIx env] }
    signerKeys := [env.payerPub, env.keypairPub] }

/-- One run of the week-1 script.  `sendTransaction` is not wrapped in any
try/catch: when it fails, the error propagates and the trailing logs never
run. -/
def runWeek1 (env : Week1Env) : ScriptRun String :=
  let pre : List Event :=
    [ .log ("Payer address: " ++ env.payerPub)
    , .log ("Test wallet address: " ++ env.testWalletPub)
    , .netLatestBlockhash
    , .netSendTransaction (week1Tx env) ]
  match env.sendResult with
  | .ok sig =>
      { events := pre ++
          [ .log "Transaction completed."
          , .log (explorerURL sig) ]
        result := .ok sig }
  | .error e =>
      { events := pre
        result := .error e }

/-! ## The token-mint script (`src/unnamed/part_000`) -/

/-- The assorted token config settings of the mint script. -/
structure TokenConfig where
  decimals : Nat
  name : String
  symbol : String
  uri : String
  deriving DecidableEq, Repr

/-- Value `tokenConfig` of the mint script: 6 decimals, "Pepe Token" / "PP". -/
def tokenConfig : TokenConfig :=
  { decimals := 6
    name := "Pepe Token"
    symbol := "PP"
    uri := "https://raw.githubusercontent.com/hkhangus/solana-bootcamp-autumn-2024/main/week-2/assignment/assets/pepe-token.json" }

/-- Environment of a run of the mint script: configured wallets, the
generated mint keypair's public key, and the network responses. -/
structure MintEnv where
  payerPub : Pubkey
  testWalletPub : Pubkey
  mintPub : Pubkey
  staticPub : Pubkey
  rentLamports : Nat
  blockhash : String
  sendResult : Except SolanaError String
  deriving Repr

/-- Instruction `createMintAccountInstruction`: allocate `MINT_SIZE` bytes for the
mint account, funded with the fetched rent-exemption lamports, owned by
the token program. -/
def createMintAccountInstruction (env : MintEnv) : Instruction :=
  .createAccount env.payerPub env.mintPub env.rentLamports MINT_SIZE TOKEN_PROGRAM_ID

/-- Instruction `initializeMintInstruction`: initialize the mint with
`tokenConfig.decimals` decimals, the payer as both authorities. -/
def initializeMintInstruction (env : MintEnv) : Instruction :=
  .initializeMint2 env.mintPub tokenConfig.decimals env.payerPub env.payerPub

/-- Address `metadataAccount`: the PDA derived from the seeds `"metadata"`, the
metadata program id and the mint public key, under the metadata program. -/
def metadataAccount (mintPub : Pubkey) : Pubkey :=
  findProgramAddressSync ["metadata", METADATA_PROGRAM_ID, mintPub] METADATA_PROGRAM_ID

/-- Instruction `createMetadataInstruction`: create the metadata account with the
token config's name, symbol and uri, 0 seller-fee basis points, mutable. -/
def createMetadataInstruction (env : MintEnv) : Instruction :=
  .createMetadataAccountV3 (metadataAccount env.mintPub) env.mintPub
    env.payerPub env.payerPub env.payerPub
    tokenConfig.name tokenConfig.symbol tokenConfig.uri 0 true

/-- Address `associatedToken`: the payer's associated token account PDA. -/
def associatedToken (env : MintEnv) : Pubkey :=
  findProgramAddressSync [env.payerPub, TOKEN_PROGRAM_ID, env.mintPub]
    ASSOCIATED_TOKEN_PROGRAM_ID

/-- Instruction `createAssociatedTokenAccountSelfInstruction`. -/
def createAssociatedTokenAccountSelfInstruction (env : MintEnv) : Instruction :=
  .createAssociatedTokenAccount env.payerPub (associatedToken env) env.payerPub env.mintPub

/-- Instruction `mintTokenToSelfInstruction`: mint 100,000,000 base units to self. -/
def mintTokenToSelfInstruction (env : MintEnv) : Instruction :=
  .mintTo env.mintPub (associatedToken env) env.payerPub 100000000

/-- Address `associatedToken2`: the static wallet's associated token account PDA. -/
def associatedToken2 (env : MintEnv) : Pubkey :=
  findProgramAddressSync [env.staticPub, TOKEN_PROGRAM_ID, env.mintPub]
    ASSOCIATED_TOKEN_PROGRAM_ID

/-- Instruction `createAssociatedTokenAccountStaticInstruction`. -/
def createAssociatedTokenAccountStaticInstruction (env : MintEnv) : Instruction :=
  .createAssociatedTokenAccount env.payerPub (associatedToken2 env) env.staticPub env.mintPub

/-- Instruction `mintTokenToStaticAddressInstruction`: mint 10,000,000 base units to
the static wallet's associated token account. -/
def mintTokenToStaticAddressInstruction (env : MintEnv) : Instruction :=
  .mintTo env.mintPub (associatedToken2 env) env.payerPub 10000000

/-- The instruction list the mint script passes to `buildTransaction`, in
source order. -/
def mintInstructions (env : MintEnv) : List Instruction :=
  [ createMintAccountInstruction env
  , initializeMintInstruction env
  , createMetadataInstruction env
  , createAssociatedTokenAccountSelfInstruction env
  , mintTokenToSelfInstruction env
  , createAssociatedTokenAccountStaticInstruction env
  , mintTokenToStaticAddressInstruction env ]

/-- Modelled from the spec: `buildTransaction` of `lib/helpers` (not in
`src/`) "assembles instructions into a single transaction message,
attaches a recent blockhash" fetched from the connection, "and signs with
the required keypairs". -/
def buildTransaction (payerPub : Pubkey) (signerKeys : List Pubkey)
    (instructions : List Instruction) (blockhash : String) : VersionedTransaction :=
  { message :=
      { payerKey := payerPub
        recentBlockhash := blockhash
        instructions := instructions }
    signerKeys := signerKeys }

/-- The transaction the mint script builds. -/
def mintTx (env : MintEnv) : VersionedTransaction :=
  buildTransaction env.payerPub [env.payerPub, env.mintPub]
    (mintInstructions env) env.blockhash

/-- One run of the mint script.  A single try/catch surrounds
`sendTransaction`: on success the explorer link is logged and the mint's
public key is saved to a file; on failure the built transaction is
logged, `extractSignatureFromFailedTransaction` is called (its result
logged when present), and the original error is re-thrown. -/
def runMint (env : MintEnv) : ScriptRun String :=
  let pre : List Event :=
    [ .log ("Payer address: " ++ env.payerPub)
    , .log ("Test wallet address: " ++ env.testWalletPub)
    , .log ("Mint address: " ++ env.mintPub)
    , .netRentExemption MINT_SIZE
    , .log ("Metadata address: " ++ metadataAccount env.mintPub)
    , .netLatestBlockhash
    , .log "separator"
    , .netSendTransaction (mintTx env) ]
  match env.sendResult with
  | .ok sig =>
      { events := pre ++
          [ .log "Transaction completed."
          , .log (explorerURL sig)
          , .fileWrite "tokenMint" env.mintPub ]
        result := .ok sig }
  | .error e =>
      { events := pre ++
          [ .log "Failed to send transaction:"
          , .logTx (mintTx env)
          , .extractSignature e ] ++
          (match extractSignatureFromFailedTransaction e with
           | some s => [.log ("Failed signature: " ++ explorerURL s)]
           | none => [])
        result := .error e }

/-! ## The NFT script (`week-2/assignment/scripts/createNFTs.ts`) -/

/-- The JSON metadata the NFT script uploads. -/
def nftMetadata : NftMetadata :=
  { name := "Pepe Token"
    symbol := "PP"
    description := "Pepe Token is a token for the people, by the people, and of the people."
    image := "https://github.com/hkhangus/solana-bootcamp-autumn-2024/blob/main/week-2/assignment/assets/pepe.jpg?raw=true" }

/-- Environment of a run of the NFT script: the payer, the generated
token-mint keypair's public key, and the three network responses
(metadata upload, NFT creation, mint lookup). -/
structure NftEnv where
  payerPub : Pubkey
  tokenMintPub : Pubkey
  uploadResult : Except SolanaError String
  createResult : Except SolanaError String
  findResult : Except SolanaError Unit
  deriving Repr

/-- The argument record the NFT script passes to `metaplex.nfts().create`:
the uploaded uri, the metadata object's name and symbol, the generated
mint, 1000 seller-fee basis points, mutable. -/
def nftCreateArgs (uri : String) (mintPub : Pubkey) : NftCreateArgs :=
  { uri := uri
    name := nftMetadata.name
    symbol := nftMetadata.symbol
    useNewMint := mintPub
    sellerFeeBasisPoints := 1000
    isMutable := true }

/-- One run of the NFT script.  No try/catch anywhere: a failure of the
metadata upload, the NFT creation or the mint lookup propagates and the
rest of the script never runs. -/
def runNft (env : NftEnv) : ScriptRun Unit :=
  let pre : List Event :=
    [ .log ("Payer address: " ++ env.payerPub)
    , .log "Uploading metadata..."
    , .netUploadMetadata nftMetadata ]
  match env.uploadResult with
  | .error e => { events := pre, result := .error e }
  | .ok uri =>
    let pre2 : List Event := pre ++
      [ .log ("Metadata uploaded: " ++ uri)
      , .log "separator"
      , .log "Creating NFT using Metaplex..."
      , .netCreateNft (nftCreateArgs uri env.tokenMintPub) ]
    match env.createResult with
    | .error e => { events := pre2, result := .error e }
    | .ok sig =>
      let pre3 : List Event := pre2 ++
        [ .log "nft"
        , .log "separator"
        , .log (explorerURL sig)
        , .log "separator"
        , .netFindByMint env.tokenMintPub ]
      match env.findResult with
      | .error e => { events := pre3, result := .error e }
      | .ok _ =>
          { events := pre3 ++ [.log "mintInfo"]
            result := .ok () }

/-! ## Projections used by the theorems -/

/-- The decimals argument of an `initializeMint2` instruction. -/
def Instruction.decimalsOf : Instruction → Option Nat
  | .initializeMint2 _ d _ _ => some d
  | _ => none

/-- The seller-fee basis points of a `createMetadataAccountV3` instruction. -/
def Instruction.sellerFeeOf : Instruction → Option Nat
  | .createMetadataAccountV3 _ _ _ _ _ _ _ _ fee _ => some fee
  | _ => none

/-- The net change, in lamports, an instruction causes on an account's
balance: `createAccount` funds the new account from the funder, `transfer`
moves lamports, and the token instructions move no lamports. -/
def Instruction.lamportDelta (acct : Pubkey) : Instruction → Int
  | .createAccount f n l _ _ =>
      (if n = acct then (l : Int) else 0) - (if f = acct then (l : Int) else 0)
  | .transfer f t l =>
      (if t = acct then (l : Int) else 0) - (if f = acct then (l : Int) else 0)
  | _ => 0

/-- The net lamport change of an account across an instruction list. -/
def lamportDelta (acct : Pubkey) (ixs : List Instruction) : Int :=
  (ixs.map (Instruction.lamportDelta acct)).sum

/-! ## Claims -/

/-- C4: the week-1 script assembles exactly the three constructed
instructions, in construction order (create account, transfer to the
static wallet, transfer back to the payer), into a single transaction
message; attaches the fetched recent blockhash; signs with the payer and
the generated keypair; and submits exactly that transaction. -/
theorem week1_transaction_assembly (env : Week1Env) :
    (week1Tx env).message.instructions =
      [ Instruction.createAccount env.payerPub env.keypairPub 200000000 0 SYSTEM_PROGRAM_ID
      , Instruction.transfer env.keypairPub env.staticPub 100000000
      , Instruction.transfer env.keypairPub env.payerPub 100000000 ] ∧
    (week1Tx env).message.recentBlockhash = env.blockhash ∧
    (week1Tx env).signerKeys = [env.payerPub, env.keypairPub] ∧
    Event.netSendTransaction (week1Tx env) ∈ (runWeek1 env).events := by
  refine ⟨rfl, rfl, rfl, ?_⟩
  cases h : env.sendResult <;> simp [runWeek1, h]

/-- C6: the metadata account address of the mint script is a
deterministic function of the seeds ("metadata", the metadata program id,
the mint public key) and the program identifier: two runs whose generated
mint keypairs have the same public key derive the same address. -/
theorem metadata_pda_deterministic (e1 e2 : MintEnv) (h : e1.mintPub = e2.mintPub) :
    metadataAccount e1.mintPub =
      findProgramAddressSync ["metadata", METADATA_PROGRAM_ID, e1.mintPub]
        METADATA_PROGRAM_ID ∧
    metadataAccount e1.mintPub = metadataAccount e2.mintPub :=
  ⟨rfl, by rw [h]⟩

/-- Witness for C6 at two concrete environments sharing a mint key. -/
theorem metadata_pda_deterministic_witness :
    metadataAccount (MintEnv.mk "p" "t" "m" "s" 0 "b" (Except.ok "sig")).mintPub
      = metadataAccount (MintEnv.mk "q" "u" "m" "v" 1 "c" (Except.error ⟨"x", none⟩)).mintPub :=
  (metadata_pda_deterministic _ _ rfl).2

/-- C7: decimal precision and royalty basis points are fixed constants of
the scripts, independent of the run environment: the fungible token is
initialized with exactly 6 decimals and its metadata carries 0 seller-fee
basis points, while the NFT is created with exactly 1000 seller-fee basis
points. -/
theorem fixed_config_constants (envM : MintEnv) (uri : String) (mintPub : Pubkey) :
    (initializeMintInstruction envM).decimalsOf = some 6 ∧
    (createMetadataInstruction envM).sellerFeeOf = some 0 ∧
    tokenConfig.decimals = 6 ∧
    (nftCreateArgs uri mintPub).sellerFeeBasisPoints = 1000 ∧
    initializeMintInstruction envM ∈ mintInstructions envM ∧
    createMetadataInstruction envM ∈ mintInstructions envM := by
  refine ⟨rfl, rfl, rfl, rfl, ?_, ?_⟩ <;> simp [mintInstructions]

/-- C9: in the week-1 script the lamports funding the new account
(200,000,000) equal the sum moved out of it by the two transfers
(100,000,000 + 100,000,000), so the instruction sequence leaves the new
account with zero net lamport change. -/
theorem week1_new_account_zero_net (env : Week1Env)
    (h1 : env.keypairPub ≠ env.payerPub)
    (h2 : env.keypairPub ≠ env.staticPub) :
    (200000000 : Int) = 100000000 + 100000000 ∧
    lamportDelta env.keypairPub (week1Tx env).message.instructions = 0 := by
  refine ⟨rfl, ?_⟩
  simp [lamportDelta, week1Tx, createAccountIx, transferToStaticWalletIx,
        closeAccountIx, Instruction.lamportDelta, h1, h2, Ne.symm h1, Ne.symm h2]

/-- Witness for C9 at a concrete environment with distinct addresses. -/
theorem week1_new_account_zero_net_witness :
    ("kp" : Pubkey) ≠ "payer" ∧ ("kp" : Pubkey) ≠ "static" ∧
    lamportDelta "kp"
      (week1Tx (Week1Env.mk "payer" "tw" "kp" "static" "bh" (Except.ok "s"))).message.instructions
      = 0 :=
  ⟨by decide, by decide,
    (week1_new_account_zero_net (Week1Env.mk "payer" "tw" "kp" "static" "bh" (Except.ok "s"))
      (by decide) (by decide)).2⟩

/-- C10: the NFT creation call receives exactly the name and symbol of the
uploaded metadata object: name "Pepe Token" and symbol "PP", and the run
that uploads the metadata passes those values to the creation request. -/
theorem nft_name_symbol_match (env : NftEnv) (uri : String)
    (h : env.uploadResult = Except.ok uri) :
    (nftCreateArgs uri env.tokenMintPub).name = nftMetadata.name ∧
    (nftCreateArgs uri env.tokenMintPub).symbol = nftMetadata.symbol ∧
    nftMetadata.name = "Pepe Token" ∧ nftMetadata.symbol = "PP" ∧
    Event.netUploadMetadata nftMetadata ∈ (runNft env).events ∧
    Event.netCreateNft (nftCreateArgs uri env.tokenMintPub) ∈ (runNft env).events := by
  refine ⟨rfl, rfl, rfl, rfl, ?_, ?_⟩ <;>
    cases hc : env.createResult <;> cases hf : env.findResult <;>
      simp [runNft, h, hc, hf]

/-- Witness for C10 at a concrete environment whose upload succeeds. -/
theorem nft_name_symbol_match_witness :
    Event.netCreateNft (nftCreateArgs "uri0" "mint0")
      ∈ (runNft (NftEnv.mk "p" "mint0" (Except.ok "uri0") (Except.ok "sig") (Except.ok ()))).events :=
  (nft_name_symbol_match
    (NftEnv.mk "p" "mint0" (Except.ok "uri0") (Except.ok "sig") (Except.ok ()))
    "uri0" rfl).2.2.2.2.2

/-- C2: in the token-mint script a single try/catch surrounds the final
submission: on failure the run logs the built transaction, calls the
signature-extraction helper on the thrown error, and terminates with the
original error unchanged. -/
theorem mint_catch_logs_and_rethrows (env : MintEnv) (e : SolanaError)
    (h : env.sendResult = Except.error e) :
    (runMint env).result = Except.error e ∧
    Event.logTx (mintTx env) ∈ (runMint env).events ∧
    Event.extractSignature e ∈ (runMint env).events := by
  cases hs : e.signature <;>
    simp [runMint, h, extractSignatureFromFailedTransaction, hs]

/-- Witness for C2 at a concrete environment whose submission fails. -/
theorem mint_catch_logs_and_rethrows_witness :
    (runMint (MintEnv.mk "p" "t" "m" "s" 7 "b" (Except.error ⟨"boom", none⟩))).result
      = Except.error ⟨"boom", none⟩ :=
  (mint_catch_logs_and_rethrows
    (MintEnv.mk "p" "t" "m" "s" 7 "b" (Except.error ⟨"boom", none⟩))
    ⟨"boom", none⟩ rfl).1

/-- C3: the only persistent write of any run is the mint script saving
the token mint's public key to a file, it happens exactly when submission
succeeds, never before the submission event, and the week-1 and NFT
scripts write no file at all. -/
theorem file_write_discipline (eM : MintEnv) (eW : Week1Env) (eN : NftEnv) :
    (runMint eM).events.filter Event.isFileWrite =
      (match eM.sendResult with
       | .ok _ => [Event.fileWrite "tokenMint" eM.mintPub]
       | .error _ => []) ∧
    ((runMint eM).events.takeWhile (fun e => !e.isSubmission)).filter
      Event.isFileWrite = [] ∧
    (runWeek1 eW).events.filter Event.isFileWrite = [] ∧
    (runNft eN).events.filter Event.isFileWrite = [] := by
  refine ⟨?_, ?_, ?_, ?_⟩
  · cases h : eM.sendResult with
    | ok s => simp [runMint, h, Event.isFileWrite]
    | error e =>
        cases hs : e.signature <;>
          simp [runMint, h, extractSignatureFromFailedTransaction, hs, Event.isFileWrite]
  · cases h : eM.sendResult with
    | ok s => simp [runMint, h, Event.isSubmission, Event.isFileWrite]
    | error e =>
        cases hs : e.signature <;>
          simp [runMint, h, extractSignatureFromFailedTransaction, hs,
                Event.isSubmission, Event.isFileWrite]
  · cases h : eW.sendResult <;> simp [runWeek1, h, Event.isFileWrite]
  · cases hu : eN.uploadResult <;> cases hc : eN.createResult <;>
      cases hf : eN.findResult <;> simp [runNft, hu, hc, hf, Event.isFileWrite]

/-- C5: every script submits its transaction to the network at most once
per run: in each run's trace there is at most one submission event, so a
failed submission is never retried. -/
theorem at_most_one_submission (eW : Week1Env) (eM : MintEnv) (eN : NftEnv) :
    (runWeek1 eW).events.countP Event.isSubmission ≤ 1 ∧
    (runMint eM).events.countP Event.isSubmission ≤ 1 ∧
    (runNft eN).events.countP Event.isSubmission ≤ 1 := by
  refine ⟨?_, ?_, ?_⟩
  · cases h : eW.sendResult <;> simp [runWeek1, h, Event.isSubmission]
  · cases h : eM.sendResult with
    | ok s => simp [runMint, h, Event.isSubmission]
    | error e =>
        cases hs : e.signature <;>
          simp [runMint, h, extractSignatureFromFailedTransaction, hs, Event.isSubmission]
  · cases hu : eN.uploadResult <;> cases hc : eN.createResult <;>
      cases hf : eN.findResult <;> simp [runNft, hu, hc, hf, Event.isSubmission]

/-- C8: the network requests of each run are issued in strict sequence:
the mint script's trace of network events is exactly the rent-exemption
fetch, then the blockhash fetch of the transaction build, then the
submission; the week-1 script's is the blockhash fetch then the
submission; the NFT script's is the upload, then (when the upload
succeeds) the creation, then (when creation succeeds) the mint lookup. -/
theorem network_requests_sequential (eM : MintEnv) (eW : Week1Env) (eN : NftEnv) :
    (runMint eM).events.filter Event.isNet =
      [ Event.netRentExemption MINT_SIZE
      , Event.netLatestBlockhash
      , Event.netSendTransaction (mintTx eM) ] ∧
    (runWeek1 eW).events.filter Event.isNet =
      [ Event.netLatestBlockhash
      , Event.netSendTransaction (week1Tx eW) ] ∧
    (runNft eN).events.filter Event.isNet =
      (match eN.uploadResult with
       | .error _ => [Event.netUploadMetadata nftMetadata]
       | .ok u =>
          [ Event.netUploadMetadata nftMetadata
          , Event.netCreateNft (nftCreateArgs u eN.tokenMintPub) ] ++
          (match eN.createResult with
           | .error _ => []
           | .ok _ => [Event.netFindByMint eN.tokenMintPub])) := by
  refine ⟨?_, ?_, ?_⟩
  · cases h : eM.sendResult with
    | ok s => simp [runMint, h, Event.isNet]
    | error e =>
        cases hs : e.signature <;>
          simp [runMint, h, extractSignatureFromFailedTransaction, hs, Event.isNet]
  · cases h : eW.sendResult <;> simp [runWeek1, h, Event.isNet]
  · cases hu : eN.uploadResult <;> cases hc : eN.createResult <;>
      cases hf : eN.findResult <;> simp [runNft, hu, hc, hf, Event.isNet]

/-- Counterexample to C1: the week-1 script, on a failed submission,
terminates with the error but never calls the signature-extraction
helper, so not every script attempts to extract a signature from the
thrown error. -/
theorem week1_no_extraction_on_failure :
    (runWeek1 (Week1Env.mk "payer" "tw" "kp" "static" "bh"
        (Except.error ⟨"boom", none⟩))).result = Except.error ⟨"boom", none⟩ ∧
    (runWeek1 (Week1Env.mk "payer" "tw" "kp" "static" "bh"
        (Except.error ⟨"boom", none⟩))).events.countP Event.isExtract = 0 := by
  constructor <;> rfl

/-- C1 (amended): only the token-mint script attempts to extract a
transaction signature from a failed submission's error before re-raising
it; the week-1 script terminates with the submission error without any
extraction attempt, and the NFT script never attempts extraction. -/
theorem extraction_only_in_mint_script (eM : MintEnv) (eW : Week1Env) (eN : NftEnv)
    (e1 e2 : SolanaError)
    (hM : eM.sendResult = Except.error e1)
    (hW : eW.sendResult = Except.error e2) :
    ((runMint eM).result = Except.error e1 ∧
      Event.extractSignature e1 ∈ (runMint eM).events) ∧
    ((runWeek1 eW).result = Except.error e2 ∧
      (runWeek1 eW).events.countP Event.isExtract = 0) ∧
    (runNft eN).events.countP Event.isExtract = 0 := by
  refine ⟨?_, ?_, ?_⟩
  · cases hs : e1.signature <;>
      simp [runMint, hM, extractSignatureFromFailedTransaction, hs]
  · simp [runWeek1, hW, Event.isExtract]
  · cases hu : eN.uploadResult <;> cases hc : eN.createResult <;>
      cases hf : eN.findResult <;> simp [runNft, hu, hc, hf, Event.isExtract]

/-- Witness for the amended C1 at concrete failing environments. -/
theorem extraction_only_in_mint_script_witness :
    Event.extractSignature ⟨"e1", some "sig1"⟩
      ∈ (runMint (MintEnv.mk "p" "t" "m" "s" 7 "b"
          (Except.error ⟨"e1", some "sig1"⟩))).events :=
  (extraction_only_in_mint_script
    (MintEnv.mk "p" "t" "m" "s" 7 "b" (Except.error ⟨"e1", some "sig1"⟩))
    (Week1Env.mk "p" "t" "k" "s" "b" (Except.error ⟨"e2", none⟩))
    (NftEnv.mk "p" "m" (Except.ok "u") (Except.ok "s") (Except.ok ()))
    ⟨"e1", some "sig1"⟩ ⟨"e2", none⟩ rfl rfl).1.2

end Bootcamp
